import Mathlib

/-!
Verification of the cloud-identity node-join verifier and the EC2 label
importer of this repository.

The production body of the verifier (the function exercised as
CheckEC2Request by src/lib/auth/ec2_join_test.go) is not among the source
files of this snapshot; only its test file is.  Following the test file,
the verifier is modelled here from the specification, with two behaviours
fixed by the in-repository tests where they contradict the spec text:

* TestHostUniqueCheck upserts a provision token whose roles are
  RoleNode and RoleKube, and then requires CheckEC2Request to succeed for
  requests whose role is RoleProxy, RoleDatabase or RoleApp
  (src/lib/auth/ec2_join_test.go, lines 584-599 and 686-698).  Hence the
  verifier performs no membership check of the requested role against the
  roles of the token.

* The same test runs its sub-tests sequentially against one shared auth
  server under one and the same host id.  After the RoleNode sub-test has
  registered a node under the id, the RoleProxy sub-test still requires
  the first CheckEC2Request to succeed (line 698).  Hence the uniqueness
  check consults only resources of the kind corresponding to the
  requested role, not every resource kind.

The label importer (src/lib/labels/ec2/ec2.go) is embedded directly from
its source; Go maps are rendered as association lists.
-/

namespace EC2Join

/-- Modelled from the spec: AttestationClaims of section 3 — the verified
claim set of a vendor-signed instance-identity document.  Timestamps are
whole seconds. -/
structure AttestationClaims where
  accountID : String
  region : String
  instanceID : String
  issuedAt : Int
deriving DecidableEq, Repr

/-- Modelled from the spec: an attestation blob is either a well-signed
envelope decoding to a claim set, or anything else.  The cryptographic
signature chain itself (section 4.1) is abstracted into this dichotomy:
the postcondition of the parser is all the verifier consumes. -/
inductive AttestationBlob where
  | valid (claims : AttestationClaims)
  | invalid
deriving DecidableEq, Repr

/-- Modelled from the spec: the contract of section 4.1,
verify(blob) -> AttestationClaims | ParseError.  A valid envelope yields
its claims, everything else a parse failure (rendered as none). -/
def verify : AttestationBlob → Option AttestationClaims
  | AttestationBlob.valid claims => some claims
  | AttestationBlob.invalid => none

/-- Modelled from the spec: TokenRule of section 3 —
an account/region predicate; an empty region list is a wildcard. -/
structure TokenRule where
  account : String
  regions : List String
deriving DecidableEq, Repr

/-- Modelled from the spec: the system roles a join request may ask for,
as exercised by the test file (RoleNode, RoleProxy, RoleKube,
RoleDatabase, RoleApp). -/
inductive SystemRole where
  | node
  | proxy
  | kube
  | database
  | app
deriving DecidableEq, Repr

/-- Modelled from the spec: ProvisionToken of section 3.  A ttlOverride
of none means the 5-minute default applies; expiry is the instant the
token itself lapses. -/
structure ProvisionToken where
  allowedRoles : List SystemRole
  allowRules : List TokenRule
  ttlOverride : Option Int
  expiry : Int
deriving DecidableEq, Repr

/-- Modelled from the spec: JoinRequest of section 3. -/
structure JoinRequest where
  token : String
  requestedRole : SystemRole
  claimedHostID : String
  attestationBlob : AttestationBlob
deriving DecidableEq, Repr

/-- Modelled from the spec: the resource kinds of the registry
(node, proxy, kube service, database server, app server). -/
inductive ResourceKind where
  | node
  | proxy
  | kubeService
  | databaseServer
  | appServer
deriving DecidableEq, Repr

/-- The registry kind a given requested role registers under, as
exercised by the upserters of TestHostUniqueCheck (node for RoleNode,
proxy for RoleProxy, kube service for RoleKube, database server for
RoleDatabase, app server for RoleApp). -/
def roleKind : SystemRole → ResourceKind
  | SystemRole.node => ResourceKind.node
  | SystemRole.proxy => ResourceKind.proxy
  | SystemRole.kube => ResourceKind.kubeService
  | SystemRole.database => ResourceKind.databaseServer
  | SystemRole.app => ResourceKind.appServer

/-- Modelled from the spec: RegistryEntry of section 3 — an
already-provisioned resource keyed by kind and name. -/
structure RegistryEntry where
  kind : ResourceKind
  name : String
deriving DecidableEq, Repr

/-- Whether a resource of the given kind is registered under the given
name.  The in-repository test TestHostUniqueCheck fixes the scope of this
check to the one kind the requested role registers under. -/
def hostRegistered (registry : List RegistryEntry) (kind : ResourceKind)
    (name : String) : Bool :=
  registry.any fun e => e.kind == kind && e.name == name

/-- Modelled from the spec: the matching rule of section 3 — a rule
matches when its account equals the claimed account and its region list
is empty (wildcard) or lists the claimed region. -/
def ruleMatches (rule : TokenRule) (claims : AttestationClaims) : Bool :=
  rule.account == claims.accountID &&
    (rule.regions.isEmpty || rule.regions.contains claims.region)

/-- Modelled from the spec: a request satisfies the token when any rule
of its ordered rule list matches (OR semantics, section 4.2). -/
def tokenRulesMatch (token : ProvisionToken) (claims : AttestationClaims) : Bool :=
  token.allowRules.any fun rule => ruleMatches rule claims

/-- Modelled from the spec: the instance states the liveness oracle of
section 4.4 can report. -/
inductive InstanceState where
  | running
  | stopped
  | terminated
  | pending
deriving DecidableEq, Repr

/-- Modelled from the spec: the contract of section 4.4,
describe(instanceID) -> State | NotFound | Internal(error). -/
inductive OracleResult where
  | found (state : InstanceState)
  | notFound
  | transportError
deriving DecidableEq, Repr

/-- Modelled from the spec: the tri-state verdict of section 4.2. -/
inductive Verdict where
  | ok
  | accessDenied (reason : String)
  | internal (reason : String)
deriving DecidableEq, Repr

/-- Modelled from the spec: the default attestation freshness window of 5
minutes (section 4.2 step 4), in seconds. -/
def defaultIIDTTL : Int := 300

/-- Modelled from the spec: the verifier of section 4.2 (the production
CheckEC2Request body is absent from this snapshot).  The verdict is the
pure function of (request, token store, current time, liveness result,
registry snapshot) that section 3 promises.  Steps follow the order of
section 4.2, with the two deviations the in-repository tests mandate (see
the file header): no role-membership check, and uniqueness restricted to
the kind of the requested role. -/
def checkJoin (tokenStore : String → Option ProvisionToken) (now : Int)
    (oracle : OracleResult) (registry : List RegistryEntry)
    (req : JoinRequest) : Verdict :=
  match verify req.attestationBlob with
  | none => Verdict.accessDenied "invalid attestation"
  | some claims =>
    if req.claimedHostID ≠ claims.accountID ++ "-" ++ claims.instanceID then
      Verdict.accessDenied "host id mismatch"
    else
      match tokenStore req.token with
      | none => Verdict.accessDenied "invalid token"
      | some token =>
        if token.expiry ≤ now then
          Verdict.accessDenied "invalid token"
        else
          let ttl := token.ttlOverride.getD defaultIIDTTL
          if now - claims.issuedAt > ttl ∨ claims.issuedAt > now then
            Verdict.accessDenied "attestation expired"
          else if ¬ tokenRulesMatch token claims then
            Verdict.accessDenied "not authorized"
          else
            match oracle with
            | OracleResult.transportError => Verdict.internal "oracle transport failure"
            | OracleResult.notFound => Verdict.accessDenied "instance not running"
            | OracleResult.found state =>
              if state ≠ InstanceState.running then
                Verdict.accessDenied "instance not running"
              else if hostRegistered registry (roleKind req.requestedRole)
                  req.claimedHostID then
                Verdict.accessDenied "host already registered"
              else
                Verdict.ok

/-- Modelled from the spec: the critical section of section 5 — the
uniqueness check and the registration write executed as one atomic step,
the serialization discipline the spec demands of implementations (the
production registration path is likewise absent from this snapshot).  A
verdict of ok inserts the joining host under the kind its role registers
as; every other verdict leaves the registry unchanged. -/
def checkJoinAndRegister (tokenStore : String → Option ProvisionToken)
    (now : Int) (oracle : OracleResult) (registry : List RegistryEntry)
    (req : JoinRequest) : List RegistryEntry × Verdict :=
  match checkJoin tokenStore now oracle registry req with
  | Verdict.ok =>
      (RegistryEntry.mk (roleKind req.requestedRole) req.claimedHostID :: registry,
        Verdict.ok)
  | v => (registry, v)

/-! Concrete fixtures mirroring instance1 and the provision token of the
test file (src/lib/auth/ec2_join_test.go); the pendingTime of the
attestation is taken as instant 0. -/

/-- The verified claims of instance1 of the test file. -/
def sampleClaims : AttestationClaims :=
  { accountID := "278576220453"
    region := "us-west-2"
    instanceID := "i-078517ca8a70a1dde"
    issuedAt := 0 }

/-- The host id accountID-instanceID of instance1. -/
def sampleHostID : String := "278576220453-i-078517ca8a70a1dde"

/-- The allow-rule of the test token: the account and region of
instance1. -/
def sampleRule : TokenRule :=
  { account := "278576220453", regions := ["us-west-2"] }

/-- An allow-rule for the account and region of the other test
instance. -/
def otherRule : TokenRule :=
  { account := "883474662888", regions := ["us-west-1"] }

/-- An allow-rule with an empty region list for the account of
instance1. -/
def wildcardRule : TokenRule :=
  { account := "278576220453", regions := [] }

/-- The provision token of TestHostUniqueCheck: roles node and kube, one
allow-rule for instance1, default attestation TTL.  The test file creates
the token with a wall-clock expiry while driving the verifier with a fake
clock set years earlier, so the token never lapses within a scenario; a
late expiry renders that here. -/
def sampleToken : ProvisionToken :=
  { allowedRoles := [SystemRole.node, SystemRole.kube]
    allowRules := [sampleRule]
    ttlOverride := none
    expiry := 100000 }

/-- A token like sampleToken whose rule list holds a non-matching rule
before the matching one (the pass-with-multiple-rules row). -/
def multiRuleToken : ProvisionToken :=
  { allowedRoles := [SystemRole.node]
    allowRules := [otherRule, sampleRule]
    ttlOverride := none
    expiry := 100000 }

/-- A token like sampleToken with a 10-minute attestation TTL override
(the custom-TTL rows). -/
def ttlOverrideToken : ProvisionToken :=
  { allowedRoles := [SystemRole.node]
    allowRules := [sampleRule]
    ttlOverride := some 600
    expiry := 100000 }

/-- A token store holding the given token under the name test_token. -/
def storeOf (token : ProvisionToken) : String → Option ProvisionToken :=
  fun name => if name = "test_token" then some token else none

/-- The token store of the test fixtures. -/
def sampleStore : String → Option ProvisionToken :=
  storeOf sampleToken

/-- A join request for instance1 under the given role. -/
def sampleRequest (role : SystemRole) : JoinRequest :=
  { token := "test_token"
    requestedRole := role
    claimedHostID := sampleHostID
    attestationBlob := AttestationBlob.valid sampleClaims }

end EC2Join

namespace EC2Labels

/-- Embeds the AWSNamespace constant of src/lib/labels/ec2/ec2.go. -/
def AWSNamespace : String := "aws"

/-- Embeds toAWSLabels of src/lib/labels/ec2/ec2.go: each tag key is
namespaced as AWSNamespace ++ "/" ++ key, values unchanged.  The Go map
is rendered as an association list. -/
def toAWSLabels (labels : List (String × String)) : List (String × String) :=
  labels.map fun kv => (AWSNamespace ++ "/" ++ kv.1, kv.2)

/-- Embeds the fallible instance-metadata client consumed by Sync
(GetTagKeys and GetTagValue of the aws.InstanceMetadata interface). -/
structure InstanceMetadataClient where
  getTagKeys : Except String (List String)
  getTagValue : String → Except String String

/-- The mutable state of the EC2 label service: its cached label map. -/
structure LabelState where
  labels : List (String × String)
deriving DecidableEq, Repr

/-- Embeds the Get method of src/lib/labels/ec2/ec2.go: returns the
cached label map. -/
def Get (l : LabelState) : List (String × String) :=
  l.labels

/-- Embeds the tag-fetch loop of Sync (src/lib/labels/ec2/ec2.go lines
101-108): fetch the value of each tag in order, aborting on the first
failure. -/
def fetchTagValues (client : InstanceMetadataClient) :
    List String → Option (List (String × String))
  | [] => some []
  | t :: rest =>
    match client.getTagValue t with
    | Except.error _ => none
    | Except.ok v =>
      match fetchTagValues client rest with
      | none => none
      | some m => some ((t, v) :: m)

/-- Embeds Sync of src/lib/labels/ec2/ec2.go: fetch the tag-key list,
then the value of every tag; on any failure return with the cached labels
untouched, otherwise replace the cache wholesale with the namespaced
map. -/
def Sync (client : InstanceMetadataClient) (l : LabelState) : LabelState :=
  match client.getTagKeys with
  | Except.error _ => l
  | Except.ok tags =>
    match fetchTagValues client tags with
    | none => l
    | some m => LabelState.mk (toAWSLabels m)

/-- A client whose two tags all resolve. -/
def sampleLabelClient : InstanceMetadataClient :=
  { getTagKeys := Except.ok ["team", "env"]
    getTagValue := fun t => Except.ok ("value-" ++ t) }

/-- A client whose tag-key listing fails. -/
def failingClient : InstanceMetadataClient :=
  { getTagKeys := Except.error "unavailable"
    getTagValue := fun _ => Except.error "unavailable" }

/-- A client listing two tags of which only the first resolves. -/
def partialClient : InstanceMetadataClient :=
  { getTagKeys := Except.ok ["team", "env"]
    getTagValue := fun t =>
      if t = "team" then Except.ok "ssh" else Except.error "unavailable" }

end EC2Labels

namespace EC2Join

/-! Helper lemmas reducing checkJoin once its purely local checks
(parse, host id, token lookup and expiry, freshness, rule match) are
known to pass. -/

/-- With every local check passing, checkJoin is decided by the oracle
result and the registry. -/
theorem checkJoin_of_local_ok (tokenStore : String → Option ProvisionToken)
    (now : Int) (oracle : OracleResult) (registry : List RegistryEntry)
    (req : JoinRequest) (claims : AttestationClaims) (token : ProvisionToken)
    (hverify : verify req.attestationBlob = some claims)
    (hhost : req.claimedHostID = claims.accountID ++ "-" ++ claims.instanceID)
    (htok : tokenStore req.token = some token)
    (hexp : now < token.expiry)
    (hfresh : now - claims.issuedAt ≤ token.ttlOverride.getD defaultIIDTTL)
    (hskew : claims.issuedAt ≤ now)
    (hrules : tokenRulesMatch token claims = true) :
    checkJoin tokenStore now oracle registry req =
      match oracle with
      | OracleResult.transportError => Verdict.internal "oracle transport failure"
      | OracleResult.notFound => Verdict.accessDenied "instance not running"
      | OracleResult.found state =>
        if state ≠ InstanceState.running then
          Verdict.accessDenied "instance not running"
        else if hostRegistered registry (roleKind req.requestedRole)
            req.claimedHostID then
          Verdict.accessDenied "host already registered"
        else
          Verdict.ok := by
  have hnotexp : ¬ token.expiry ≤ now := not_le.mpr hexp
  have hnotstale :
      ¬ (now - claims.issuedAt > token.ttlOverride.getD defaultIIDTTL ∨
        claims.issuedAt > now) := by
    push_neg
    exact ⟨hfresh, hskew⟩
  unfold checkJoin
  rw [hverify]
  simp only [hhost, ne_eq, not_true_eq_false, if_false, htok, if_neg hnotexp,
    if_neg hnotstale, hrules, not_true_eq_false]

/-- With every local check passing and the instance reported Running,
checkJoin is decided by the uniqueness check alone. -/
theorem checkJoin_running (tokenStore : String → Option ProvisionToken)
    (now : Int) (registry : List RegistryEntry)
    (req : JoinRequest) (claims : AttestationClaims) (token : ProvisionToken)
    (hverify : verify req.attestationBlob = some claims)
    (hhost : req.claimedHostID = claims.accountID ++ "-" ++ claims.instanceID)
    (htok : tokenStore req.token = some token)
    (hexp : now < token.expiry)
    (hfresh : now - claims.issuedAt ≤ token.ttlOverride.getD defaultIIDTTL)
    (hskew : claims.issuedAt ≤ now)
    (hrules : tokenRulesMatch token claims = true) :
    checkJoin tokenStore now (OracleResult.found InstanceState.running) registry req =
      if hostRegistered registry (roleKind req.requestedRole) req.claimedHostID then
        Verdict.accessDenied "host already registered"
      else
        Verdict.ok := by
  rw [checkJoin_of_local_ok tokenStore now (OracleResult.found InstanceState.running)
    registry req claims token hverify hhost htok hexp hfresh hskew hrules]
  simp

/-- The stages of checkJoin after the freshness check never produce the
attestation-expired denial, whatever the rule match, the oracle result
and the uniqueness check come to. -/
theorem postRuleStage_ne_expired (b₁ b₂ : Bool) (oracle : OracleResult) :
    (if ¬ b₁ = true then Verdict.accessDenied "not authorized"
      else
        match oracle with
        | OracleResult.transportError => Verdict.internal "oracle transport failure"
        | OracleResult.notFound => Verdict.accessDenied "instance not running"
        | OracleResult.found state =>
          if state ≠ InstanceState.running then
            Verdict.accessDenied "instance not running"
          else if b₂ = true then
            Verdict.accessDenied "host already registered"
          else
            Verdict.ok) ≠ Verdict.accessDenied "attestation expired" := by
  cases b₁ <;> cases b₂ <;> rcases oracle with ⟨state⟩ | - | - <;>
    first
    | decide
    | (cases state <;> decide)

/-! Model validation: rows of TestSimplifiedNodeJoin evaluated in the
model. -/

/-- Model validation: the wrong-account row — a token whose only rule
names another account is denied as unauthorized. -/
theorem model_wrong_account_denied :
    checkJoin (storeOf (ProvisionToken.mk [SystemRole.node]
        [TokenRule.mk "bad account" ["us-west-2"]] none 100000)) 0
      (OracleResult.found InstanceState.running) [] (sampleRequest SystemRole.node) =
      Verdict.accessDenied "not authorized" := by
  decide

/-- Model validation: the wrong-region row — a matching account with a
non-empty region list that excludes the claimed region is denied. -/
theorem model_wrong_region_denied :
    checkJoin (storeOf (ProvisionToken.mk [SystemRole.node]
        [TokenRule.mk "278576220453" ["bad region"]] none 100000)) 0
      (OracleResult.found InstanceState.running) [] (sampleRequest SystemRole.node) =
      Verdict.accessDenied "not authorized" := by
  decide

/-- Model validation: the bad-identity-document row — an invalid
attestation blob is denied at the parse step. -/
theorem model_bad_document_denied :
    checkJoin sampleStore 0 (OracleResult.found InstanceState.running) []
      (JoinRequest.mk "test_token" SystemRole.node sampleHostID
        AttestationBlob.invalid) =
      Verdict.accessDenied "invalid attestation" := by
  decide

/-- Model validation: a token name the store does not hold is denied. -/
theorem model_unknown_token_denied :
    checkJoin sampleStore 0 (OracleResult.found InstanceState.running) []
      (JoinRequest.mk "other_token" SystemRole.node sampleHostID
        (AttestationBlob.valid sampleClaims)) =
      Verdict.accessDenied "invalid token" := by
  decide

/-- C1, counterexample: in the scenario of TestHostUniqueCheck — a token
whose roles are node and kube, a request for the proxy role, and every
other check satisfied — the model returns Ok, not
AccessDenied(not authorized), exactly as the test requires of
CheckEC2Request. -/
theorem c1_role_not_checked_counterexample :
    (SystemRole.proxy ∈ sampleToken.allowedRoles → False) ∧
    checkJoin sampleStore 0 (OracleResult.found InstanceState.running) []
      (sampleRequest SystemRole.proxy) = Verdict.ok ∧
    checkJoin sampleStore 0 (OracleResult.found InstanceState.running) []
      (sampleRequest SystemRole.proxy) ≠ Verdict.accessDenied "not authorized" := by
  refine ⟨by decide, by decide, by decide⟩

/-- C1, amended: checkJoin performs no membership check of the requested
role against the allowed roles of the token; a request whose role is not
allowed but which passes every other check returns Ok. -/
theorem c1_no_role_check (tokenStore : String → Option ProvisionToken)
    (now : Int) (registry : List RegistryEntry) (req : JoinRequest)
    (claims : AttestationClaims) (token : ProvisionToken)
    (hverify : verify req.attestationBlob = some claims)
    (hhost : req.claimedHostID = claims.accountID ++ "-" ++ claims.instanceID)
    (htok : tokenStore req.token = some token)
    (hexp : now < token.expiry)
    (hfresh : now - claims.issuedAt ≤ token.ttlOverride.getD defaultIIDTTL)
    (hskew : claims.issuedAt ≤ now)
    (hrules : tokenRulesMatch token claims = true)
    (hrole : req.requestedRole ∉ token.allowedRoles)
    (hreg : hostRegistered registry (roleKind req.requestedRole)
      req.claimedHostID = false) :
    checkJoin tokenStore now (OracleResult.found InstanceState.running) registry req =
      Verdict.ok := by
  rw [checkJoin_running tokenStore now registry req claims token hverify hhost htok
    hexp hfresh hskew hrules, hreg]
  simp

/-- C1, witness: the amended statement at the proxy-role fixture. -/
theorem c1_no_role_check_witness :
    checkJoin sampleStore 0 (OracleResult.found InstanceState.running) []
      (sampleRequest SystemRole.proxy) = Verdict.ok :=
  c1_no_role_check sampleStore 0 [] (sampleRequest SystemRole.proxy)
    sampleClaims sampleToken rfl (by decide) rfl (by decide) (by decide)
    (by decide) (by decide) (by decide) rfl

/-- C2, counterexample: with a node registered under the host id, a
request for the proxy role citing that very id still returns Ok — a
registration under a different resource kind does not block the join,
exactly as the RoleProxy sub-test of TestHostUniqueCheck requires. -/
theorem c2_cross_kind_counterexample :
    hostRegistered [RegistryEntry.mk ResourceKind.node sampleHostID]
      ResourceKind.node sampleHostID = true ∧
    checkJoin sampleStore 0 (OracleResult.found InstanceState.running)
      [RegistryEntry.mk ResourceKind.node sampleHostID]
      (sampleRequest SystemRole.proxy) = Verdict.ok := by
  refine ⟨by decide, by decide⟩

/-- C2, amended: with every other check satisfied, checkJoin denies with
host-already-registered exactly when a resource of the kind the requested
role registers under exists in the registry under the claimed host id,
and returns Ok when no such same-kind entry exists. -/
theorem c2_same_kind_uniqueness (tokenStore : String → Option ProvisionToken)
    (now : Int) (registry : List RegistryEntry) (req : JoinRequest)
    (claims : AttestationClaims) (token : ProvisionToken)
    (hverify : verify req.attestationBlob = some claims)
    (hhost : req.claimedHostID = claims.accountID ++ "-" ++ claims.instanceID)
    (htok : tokenStore req.token = some token)
    (hexp : now < token.expiry)
    (hfresh : now - claims.issuedAt ≤ token.ttlOverride.getD defaultIIDTTL)
    (hskew : claims.issuedAt ≤ now)
    (hrules : tokenRulesMatch token claims = true) :
    (hostRegistered registry (roleKind req.requestedRole) req.claimedHostID = true →
      checkJoin tokenStore now (OracleResult.found InstanceState.running) registry req =
        Verdict.accessDenied "host already registered") ∧
    (hostRegistered registry (roleKind req.requestedRole) req.claimedHostID = false →
      checkJoin tokenStore now (OracleResult.found InstanceState.running) registry req =
        Verdict.ok) := by
  rw [checkJoin_running tokenStore now registry req claims token hverify hhost htok
    hexp hfresh hskew hrules]
  constructor
  · intro h
    rw [h]
    simp
  · intro h
    rw [h]
    simp

/-- C2, witness: a node request is denied once a node holds the host id,
and succeeds against the empty registry. -/
theorem c2_same_kind_uniqueness_witness :
    checkJoin sampleStore 0 (OracleResult.found InstanceState.running)
      [RegistryEntry.mk ResourceKind.node sampleHostID]
      (sampleRequest SystemRole.node) =
      Verdict.accessDenied "host already registered" ∧
    checkJoin sampleStore 0 (OracleResult.found InstanceState.running) []
      (sampleRequest SystemRole.node) = Verdict.ok :=
  ⟨(c2_same_kind_uniqueness sampleStore 0
      [RegistryEntry.mk ResourceKind.node sampleHostID]
      (sampleRequest SystemRole.node) sampleClaims sampleToken
      rfl (by decide) rfl (by decide) (by decide) (by decide) (by decide)).1
      (by decide),
    (c2_same_kind_uniqueness sampleStore 0 []
      (sampleRequest SystemRole.node) sampleClaims sampleToken
      rfl (by decide) rfl (by decide) (by decide) (by decide) (by decide)).2 rfl⟩

/-- C3: with the attestation parsed, the host id matching and the token
present and unexpired, checkJoin denies with attestation-expired exactly
when now - issuedAt exceeds the TTL (the override when set, 5 minutes
otherwise) or issuedAt lies in the future, whatever the oracle and the
registry; concretely, with the default TTL a check 5 minutes and 1 second
after issuance is denied, and with a 10-minute override a check at 9
minutes is Ok while a check at 11 minutes is denied. -/
theorem c3_freshness_boundary :
    (∀ (tokenStore : String → Option ProvisionToken) (now : Int)
      (oracle : OracleResult) (registry : List RegistryEntry)
      (req : JoinRequest) (claims : AttestationClaims) (token : ProvisionToken),
      verify req.attestationBlob = some claims →
      req.claimedHostID = claims.accountID ++ "-" ++ claims.instanceID →
      tokenStore req.token = some token →
      now < token.expiry →
      (checkJoin tokenStore now oracle registry req =
          Verdict.accessDenied "attestation expired" ↔
        (now - claims.issuedAt > token.ttlOverride.getD defaultIIDTTL ∨
          claims.issuedAt > now))) ∧
    checkJoin sampleStore 301 (OracleResult.found InstanceState.running) []
      (sampleRequest SystemRole.node) = Verdict.accessDenied "attestation expired" ∧
    checkJoin (storeOf ttlOverrideToken) 540 (OracleResult.found InstanceState.running)
      [] (sampleRequest SystemRole.node) = Verdict.ok ∧
    checkJoin (storeOf ttlOverrideToken) 660 (OracleResult.found InstanceState.running)
      [] (sampleRequest SystemRole.node) = Verdict.accessDenied "attestation expired" := by
  refine ⟨?_, by decide, by decide, by decide⟩
  intro tokenStore now oracle registry req claims token hverify hhost htok hexp
  have hnotexp : ¬ token.expiry ≤ now := not_le.mpr hexp
  unfold checkJoin
  rw [hverify]
  simp only [hhost, ne_eq, not_true_eq_false, if_false, htok, if_neg hnotexp]
  by_cases hc : now - claims.issuedAt > token.ttlOverride.getD defaultIIDTTL ∨
    claims.issuedAt > now
  · simp [hc]
  · rw [if_neg hc]
    exact ⟨fun h => absurd h (postRuleStage_ne_expired _ _ oracle),
      fun h => absurd h hc⟩

/-- C3, witness: the boundary statement at the default-TTL fixture, 301
seconds after issuance. -/
theorem c3_freshness_boundary_witness :
    checkJoin sampleStore 301 (OracleResult.found InstanceState.running) []
      (sampleRequest SystemRole.node) = Verdict.accessDenied "attestation expired" :=
  (c3_freshness_boundary.1 sampleStore 301 (OracleResult.found InstanceState.running)
    [] (sampleRequest SystemRole.node) sampleClaims sampleToken rfl (by decide) rfl
    (by decide)).mpr (Or.inl (by decide))

/-- C4: once the attestation parses to claims, a claimed host id that
differs from accountID-instanceID is denied with host-id-mismatch for
every token store, time, oracle result and registry. -/
theorem c4_host_id_mismatch (tokenStore : String → Option ProvisionToken)
    (now : Int) (oracle : OracleResult) (registry : List RegistryEntry)
    (req : JoinRequest) (claims : AttestationClaims)
    (hverify : verify req.attestationBlob = some claims)
    (hmismatch : req.claimedHostID ≠ claims.accountID ++ "-" ++ claims.instanceID) :
    checkJoin tokenStore now oracle registry req =
      Verdict.accessDenied "host id mismatch" := by
  unfold checkJoin
  rw [hverify]
  simp only [ne_eq, hmismatch, not_false_eq_true, if_true]

/-- C4, witness: the bad-HostID row of TestSimplifiedNodeJoin. -/
theorem c4_host_id_mismatch_witness :
    checkJoin sampleStore 0 (OracleResult.found InstanceState.running) []
      (JoinRequest.mk "test_token" SystemRole.node "bad host id"
        (AttestationBlob.valid sampleClaims)) =
      Verdict.accessDenied "host id mismatch" :=
  c4_host_id_mismatch sampleStore 0 (OracleResult.found InstanceState.running) []
    (JoinRequest.mk "test_token" SystemRole.node "bad host id"
      (AttestationBlob.valid sampleClaims)) sampleClaims rfl (by decide)

/-- C5: with every earlier check passing, a non-Running state or an
absent instance is denied with instance-not-running (never Internal),
while a transport failure of the oracle yields the Internal verdict
(never AccessDenied, never Ok). -/
theorem c5_liveness_gate (tokenStore : String → Option ProvisionToken)
    (now : Int) (registry : List RegistryEntry) (req : JoinRequest)
    (claims : AttestationClaims) (token : ProvisionToken)
    (hverify : verify req.attestationBlob = some claims)
    (hhost : req.claimedHostID = claims.accountID ++ "-" ++ claims.instanceID)
    (htok : tokenStore req.token = some token)
    (hexp : now < token.expiry)
    (hfresh : now - claims.issuedAt ≤ token.ttlOverride.getD defaultIIDTTL)
    (hskew : claims.issuedAt ≤ now)
    (hrules : tokenRulesMatch token claims = true) :
    (∀ state, state ≠ InstanceState.running →
      checkJoin tokenStore now (OracleResult.found state) registry req =
        Verdict.accessDenied "instance not running") ∧
    (checkJoin tokenStore now OracleResult.notFound registry req =
      Verdict.accessDenied "instance not running") ∧
    (checkJoin tokenStore now OracleResult.transportError registry req =
      Verdict.internal "oracle transport failure") := by
  refine ⟨?_, ?_, ?_⟩
  · intro state hstate
    rw [checkJoin_of_local_ok tokenStore now (OracleResult.found state) registry req
      claims token hverify hhost htok hexp hfresh hskew hrules]
    simp [hstate]
  · rw [checkJoin_of_local_ok tokenStore now OracleResult.notFound registry req
      claims token hverify hhost htok hexp hfresh hskew hrules]
  · rw [checkJoin_of_local_ok tokenStore now OracleResult.transportError registry req
      claims token hverify hhost htok hexp hfresh hskew hrules]

/-- C5, witness: a Terminated instance and an absent instance are denied,
a transport failure is Internal, at the fixture request. -/
theorem c5_liveness_gate_witness :
    checkJoin sampleStore 0 (OracleResult.found InstanceState.terminated) []
      (sampleRequest SystemRole.node) = Verdict.accessDenied "instance not running" ∧
    checkJoin sampleStore 0 OracleResult.notFound []
      (sampleRequest SystemRole.node) = Verdict.accessDenied "instance not running" ∧
    checkJoin sampleStore 0 OracleResult.transportError []
      (sampleRequest SystemRole.node) = Verdict.internal "oracle transport failure" :=
  ⟨(c5_liveness_gate sampleStore 0 [] (sampleRequest SystemRole.node) sampleClaims
      sampleToken rfl (by decide) rfl (by decide) (by decide) (by decide)
      (by decide)).1 InstanceState.terminated (by decide),
    (c5_liveness_gate sampleStore 0 [] (sampleRequest SystemRole.node) sampleClaims
      sampleToken rfl (by decide) rfl (by decide) (by decide) (by decide)
      (by decide)).2.1,
    (c5_liveness_gate sampleStore 0 [] (sampleRequest SystemRole.node) sampleClaims
      sampleToken rfl (by decide) rfl (by decide) (by decide) (by decide)
      (by decide)).2.2⟩

/-- C6: a rule whose region list is empty matches every region for its
account, and its match outcome does not depend on the claimed region at
all. -/
theorem c6_empty_regions_wildcard (rule : TokenRule) (claims : AttestationClaims)
    (hempty : rule.regions = []) :
    (rule.account = claims.accountID →
      ∀ r, ruleMatches rule { claims with region := r } = true) ∧
    (∀ r₁ r₂, ruleMatches rule { claims with region := r₁ } =
      ruleMatches rule { claims with region := r₂ }) := by
  constructor
  · intro hacct r
    simp [ruleMatches, hempty, hacct]
  · intro r₁ r₂
    simp [ruleMatches, hempty]

/-- C6, witness: the wildcard rule matches the claims of instance1 moved
to an arbitrary other region. -/
theorem c6_empty_regions_wildcard_witness :
    ruleMatches wildcardRule { sampleClaims with region := "eu-central-1" } = true :=
  (c6_empty_regions_wildcard wildcardRule sampleClaims rfl).1 rfl "eu-central-1"

/-- C7: a valid attestation, a matching host id, a present unexpired
token some rule of which matches the claims (OR semantics over the rule
list), a fresh attestation, a Running instance and no registered entry of
the requested kind under the host id yield the Ok verdict. -/
theorem c7_valid_join_ok (tokenStore : String → Option ProvisionToken)
    (now : Int) (registry : List RegistryEntry) (req : JoinRequest)
    (claims : AttestationClaims) (token : ProvisionToken)
    (hverify : verify req.attestationBlob = some claims)
    (hhost : req.claimedHostID = claims.accountID ++ "-" ++ claims.instanceID)
    (htok : tokenStore req.token = some token)
    (hexp : now < token.expiry)
    (hfresh : now - claims.issuedAt ≤ token.ttlOverride.getD defaultIIDTTL)
    (hskew : claims.issuedAt ≤ now)
    (hrule : ∃ rule ∈ token.allowRules, ruleMatches rule claims = true)
    (hreg : hostRegistered registry (roleKind req.requestedRole)
      req.claimedHostID = false) :
    checkJoin tokenStore now (OracleResult.found InstanceState.running) registry req =
      Verdict.ok := by
  have hrules : tokenRulesMatch token claims = true := by
    rw [tokenRulesMatch, List.any_eq_true]
    obtain ⟨rule, hmem, hr⟩ := hrule
    exact ⟨rule, hmem, hr⟩
  rw [checkJoin_running tokenStore now registry req claims token hverify hhost htok
    hexp hfresh hskew hrules, hreg]
  simp

/-- C7, witness: the pass-with-multiple-rules row — the matching rule is
the second of two. -/
theorem c7_valid_join_ok_witness :
    checkJoin (storeOf multiRuleToken) 0 (OracleResult.found InstanceState.running) []
      (sampleRequest SystemRole.node) = Verdict.ok :=
  c7_valid_join_ok (storeOf multiRuleToken) 0 [] (sampleRequest SystemRole.node)
    sampleClaims multiRuleToken rfl (by decide) rfl (by decide) (by decide)
    (by decide) ⟨sampleRule, by decide, by decide⟩ rfl

/-- C8, counterexample: two serialized join-and-register steps for one
and the same previously-unregistered host id, one under the node role and
one under the proxy role, both end in Ok — the claim that exactly one of
two such joins receives Ok fails once the roles differ, because the
uniqueness check is scoped to the kind of the requested role. -/
theorem c8_two_ok_counterexample :
    (sampleRequest SystemRole.node).claimedHostID =
      (sampleRequest SystemRole.proxy).claimedHostID ∧
    (checkJoinAndRegister sampleStore 0 (OracleResult.found InstanceState.running) []
      (sampleRequest SystemRole.node)).2 = Verdict.ok ∧
    (checkJoinAndRegister sampleStore 0 (OracleResult.found InstanceState.running)
      (checkJoinAndRegister sampleStore 0 (OracleResult.found InstanceState.running) []
        (sampleRequest SystemRole.node)).1
      (sampleRequest SystemRole.proxy)).2 = Verdict.ok := by
  refine ⟨by decide, by decide, by decide⟩

/-- C8, amended: two concurrent join attempts for the same
previously-unregistered host id under the same requested role, executed
as the serialized atomic check-then-register steps of section 5 in either
order, end with the first receiving Ok and the second
AccessDenied(host already registered) — never two Oks. -/
theorem c8_same_role_exclusive (tokenStore : String → Option ProvisionToken)
    (now : Int) (registry : List RegistryEntry) (req₁ req₂ : JoinRequest)
    (claims₁ : AttestationClaims) (token₁ : ProvisionToken)
    (claims₂ : AttestationClaims) (token₂ : ProvisionToken)
    (h₁verify : verify req₁.attestationBlob = some claims₁)
    (h₁host : req₁.claimedHostID = claims₁.accountID ++ "-" ++ claims₁.instanceID)
    (h₁tok : tokenStore req₁.token = some token₁)
    (h₁exp : now < token₁.expiry)
    (h₁fresh : now - claims₁.issuedAt ≤ token₁.ttlOverride.getD defaultIIDTTL)
    (h₁skew : claims₁.issuedAt ≤ now)
    (h₁rules : tokenRulesMatch token₁ claims₁ = true)
    (h₂verify : verify req₂.attestationBlob = some claims₂)
    (h₂host : req₂.claimedHostID = claims₂.accountID ++ "-" ++ claims₂.instanceID)
    (h₂tok : tokenStore req₂.token = some token₂)
    (h₂exp : now < token₂.expiry)
    (h₂fresh : now - claims₂.issuedAt ≤ token₂.ttlOverride.getD defaultIIDTTL)
    (h₂skew : claims₂.issuedAt ≤ now)
    (h₂rules : tokenRulesMatch token₂ claims₂ = true)
    (hsamehost : req₂.claimedHostID = req₁.claimedHostID)
    (hsamerole : req₂.requestedRole = req₁.requestedRole)
    (hreg : hostRegistered registry (roleKind req₁.requestedRole)
      req₁.claimedHostID = false) :
    (checkJoinAndRegister tokenStore now (OracleResult.found InstanceState.running)
      registry req₁).2 = Verdict.ok ∧
    (checkJoinAndRegister tokenStore now (OracleResult.found InstanceState.running)
      (checkJoinAndRegister tokenStore now (OracleResult.found InstanceState.running)
        registry req₁).1 req₂).2 =
      Verdict.accessDenied "host already registered" := by
  have h1 : checkJoin tokenStore now (OracleResult.found InstanceState.running)
      registry req₁ = Verdict.ok := by
    rw [checkJoin_running tokenStore now registry req₁ claims₁ token₁ h₁verify h₁host
      h₁tok h₁exp h₁fresh h₁skew h₁rules, hreg]
    simp
  have hpair : checkJoinAndRegister tokenStore now
      (OracleResult.found InstanceState.running) registry req₁ =
      (RegistryEntry.mk (roleKind req₁.requestedRole) req₁.claimedHostID :: registry,
        Verdict.ok) := by
    unfold checkJoinAndRegister
    rw [h1]
  have hfst : (checkJoinAndRegister tokenStore now
      (OracleResult.found InstanceState.running) registry req₁).1 =
      RegistryEntry.mk (roleKind req₁.requestedRole) req₁.claimedHostID :: registry := by
    rw [hpair]
  have hregnew : hostRegistered
      (RegistryEntry.mk (roleKind req₁.requestedRole) req₁.claimedHostID :: registry)
      (roleKind req₂.requestedRole) req₂.claimedHostID = true := by
    simp [hostRegistered, hsamerole, hsamehost]
  have h2 : checkJoin tokenStore now (OracleResult.found InstanceState.running)
      (RegistryEntry.mk (roleKind req₁.requestedRole) req₁.claimedHostID :: registry)
      req₂ = Verdict.accessDenied "host already registered" := by
    rw [checkJoin_running tokenStore now _ req₂ claims₂ token₂ h₂verify h₂host h₂tok
      h₂exp h₂fresh h₂skew h₂rules, hregnew]
    simp
  constructor
  · rw [hpair]
  · rw [hfst]
    unfold checkJoinAndRegister
    rw [h2]

/-- C8, witness: the amended statement at two identical node-role
fixture requests. -/
theorem c8_same_role_exclusive_witness :
    (checkJoinAndRegister sampleStore 0 (OracleResult.found InstanceState.running) []
      (sampleRequest SystemRole.node)).2 = Verdict.ok ∧
    (checkJoinAndRegister sampleStore 0 (OracleResult.found InstanceState.running)
      (checkJoinAndRegister sampleStore 0 (OracleResult.found InstanceState.running) []
        (sampleRequest SystemRole.node)).1
      (sampleRequest SystemRole.node)).2 =
      Verdict.accessDenied "host already registered" :=
  c8_same_role_exclusive sampleStore 0 [] (sampleRequest SystemRole.node)
    (sampleRequest SystemRole.node) sampleClaims sampleToken sampleClaims sampleToken
    rfl (by decide) rfl (by decide) (by decide) (by decide) (by decide)
    rfl (by decide) rfl (by decide) (by decide) (by decide) (by decide)
    rfl rfl rfl

end EC2Join

namespace EC2Labels

/-- A tag fetch in which every tag value resolves yields exactly the
fetched association list, in tag order. -/
theorem fetchTagValues_ok (client : InstanceMetadataClient) (tags : List String)
    (value : String → String)
    (h : ∀ t ∈ tags, client.getTagValue t = Except.ok (value t)) :
    fetchTagValues client tags = some (tags.map fun t => (t, value t)) := by
  induction tags with
  | nil => rfl
  | cons t rest ih =>
    have ht := h t (List.mem_cons_self t rest)
    have hrest := ih fun s hs => h s (List.mem_cons_of_mem t hs)
    unfold fetchTagValues
    rw [ht, hrest]
    rfl

/-- A tag fetch in which the value fetch of some listed tag fails yields
none. -/
theorem fetchTagValues_err (client : InstanceMetadataClient) (tags : List String)
    (t : String) (e : String) (hmem : t ∈ tags)
    (herr : client.getTagValue t = Except.error e) :
    fetchTagValues client tags = none := by
  induction tags with
  | nil => cases hmem
  | cons s rest ih =>
    unfold fetchTagValues
    rcases List.mem_cons.mp hmem with heq | hmem₂
    · subst heq
      rw [herr]
    · cases hv : client.getTagValue s with
      | error err => rfl
      | ok v => rw [ih hmem₂]

/-- A tag fetch that yields a map had every tag value resolve. -/
theorem fetchTagValues_some_ok (client : InstanceMetadataClient) (tags : List String)
    (m : List (String × String)) (hsome : fetchTagValues client tags = some m) :
    ∀ t ∈ tags, ∃ v, client.getTagValue t = Except.ok v := by
  induction tags generalizing m with
  | nil =>
    intro t ht
    cases ht
  | cons s rest ih =>
    intro t ht
    unfold fetchTagValues at hsome
    cases hv : client.getTagValue s with
    | error e =>
      rw [hv] at hsome
      cases hsome
    | ok v =>
      rw [hv] at hsome
      cases hrest : fetchTagValues client rest with
      | none =>
        rw [hrest] at hsome
        cases hsome
      | some m₂ =>
        rcases List.mem_cons.mp ht with heq | hmem
        · subst heq
          exact ⟨v, hv⟩
        · exact ih m₂ hrest t hmem

/-- C9: after a Sync whose tag-key listing and every tag-value fetch
succeed, Get returns exactly one entry per fetched tag, keyed by the
original tag key prefixed with the aws namespace and carrying the
unchanged tag value. -/
theorem c9_labels_namespaced (client : InstanceMetadataClient) (l : LabelState)
    (tags : List String) (value : String → String)
    (hkeys : client.getTagKeys = Except.ok tags)
    (hvals : ∀ t ∈ tags, client.getTagValue t = Except.ok (value t)) :
    Get (Sync client l) = tags.map fun t => (AWSNamespace ++ "/" ++ t, value t) := by
  unfold Sync
  simp only [hkeys, fetchTagValues_ok client tags value hvals]
  unfold Get toAWSLabels
  rw [List.map_map]
  rfl

/-- C9, witness: the two tags of the sample client come back prefixed
with aws/ and with their values unchanged. -/
theorem c9_labels_namespaced_witness :
    Get (Sync sampleLabelClient (LabelState.mk [])) =
      [("aws/team", "value-team"), ("aws/env", "value-env")] := by
  rw [c9_labels_namespaced sampleLabelClient (LabelState.mk []) ["team", "env"]
    (fun t => "value-" ++ t) rfl (by intro t ht; rfl)]
  rfl

/-- C10: a Sync whose tag-key listing fails, or whose value fetch of any
listed tag fails, leaves the cached label map untouched; and whenever
Sync changes the state at all, the key listing and every single tag-value
fetch succeeded — no partial update is ever visible. -/
theorem c10_sync_failure_no_update (client : InstanceMetadataClient) (l : LabelState) :
    (∀ e, client.getTagKeys = Except.error e → Sync client l = l) ∧
    (∀ tags t e, client.getTagKeys = Except.ok tags → t ∈ tags →
      client.getTagValue t = Except.error e → Sync client l = l) ∧
    (Sync client l ≠ l →
      ∃ tags, client.getTagKeys = Except.ok tags ∧
        ∀ t ∈ tags, ∃ v, client.getTagValue t = Except.ok v) := by
  refine ⟨?_, ?_, ?_⟩
  · intro e he
    unfold Sync
    rw [he]
  · intro tags t e hkeys hmem herr
    unfold Sync
    simp only [hkeys, fetchTagValues_err client tags t e hmem herr]
  · intro hne
    cases hkeys : client.getTagKeys with
    | error e =>
      exfalso
      apply hne
      unfold Sync
      rw [hkeys]
    | ok tags =>
      refine ⟨tags, rfl, ?_⟩
      cases hfetch : fetchTagValues client tags with
      | none =>
        exfalso
        apply hne
        unfold Sync
        simp only [hkeys, hfetch]
      | some m =>
        exact fetchTagValues_some_ok client tags m hfetch

/-- C10, witness: a failed key listing and a failed second tag value each
leave a populated cache exactly as it was. -/
theorem c10_sync_failure_no_update_witness :
    Sync failingClient (LabelState.mk [("aws/old", "1")]) =
      LabelState.mk [("aws/old", "1")] ∧
    Sync partialClient (LabelState.mk [("aws/old", "1")]) =
      LabelState.mk [("aws/old", "1")] :=
  ⟨(c10_sync_failure_no_update failingClient (LabelState.mk [("aws/old", "1")])).1
      "unavailable" rfl,
    (c10_sync_failure_no_update partialClient (LabelState.mk [("aws/old", "1")])).2.1
      ["team", "env"] "env" "unavailable" rfl (by decide) rfl⟩

end EC2Labels
